import Mathlib

/-!
Formal model of the propp property wrapper (`include/propp/Property.hpp`) and of
the example callbacks in `examples/example.cpp`.

`Property<T, ReadOnly, ThreadSafe, GetterType, SetterType>` stores one value of
type `T` (`m_Value`) together with two per-instance reentrancy flags
(`m_GetterActive`, `m_SetterActive`).  The optional getter/setter callbacks are
arbitrary client code that may re-enter the same property through its public
interface, so they are modelled as state transformers on the per-instance
state.  The `std::recursive_mutex` taken by the ThreadSafe variants is
re-entrant and scoped to each call; in the single-threaded semantics modelled
here every `lock_guard` is a no-op and is erased (the mutex itself is not
state that the operations read or write).
-/

namespace Propp

universe u

/-- Per-instance mutable state of a `Property` object: the stored value
`m_Value` and the two reentrancy flags `m_GetterActive` / `m_SetterActive`
(lines 438, 443-444 of Property.hpp). -/
structure PropState (α : Type u) where
  value : α
  getterActive : Bool
  setterActive : Bool
deriving Repr, DecidableEq

/-- A custom getter (`std::function<T()>` / `std::function<T&()>`): client code
that produces the value returned by a read.  It may re-enter the property
through the public interface, so it is modelled as a transformer of the
per-instance state that also returns the produced value. -/
def GetterCb (α : Type u) : Type u := PropState α → α × PropState α

/-- A custom setter (`std::function<void(T)>` / `std::function<void(const T&)>`):
client code receiving the incoming value.  It may re-enter the property, so it
is modelled as a state transformer. -/
def SetterCb (α : Type u) : Type u := α → PropState α → PropState α

/-- Immutable configuration of a `Property` instantiation: the compile-time
template parameters `ReadOnly` and `ThreadSafe`, whether the `GetterType` /
`SetterType` slots are function types (as opposed to the empty structs
`NoGetter` / `NoSetter`), and the callbacks supplied at construction.
`getter = some g` corresponds to the slot being a function type holding a
non-empty `std::function` (the `m_Getter && ...` test); a `NoGetter` slot can
hold no function, so such a configuration has `getter = none`. -/
structure PropCfg (α : Type u) where
  readOnly : Bool
  threadSafe : Bool
  hasGetterSlot : Bool
  hasSetterSlot : Bool
  getter : Option (GetterCb α)
  setter : Option (SetterCb α)

/-- `Property::GetST` (lines 347-397 of Property.hpp, all four overloads share
this body): if a getter is installed and `m_GetterActive` is not set, a
`GetterGuard` sets `m_GetterActive`, the getter callback runs, and the guard
destructor clears `m_GetterActive` after the callback's result is computed;
otherwise the raw `m_Value` is returned. -/
def GetST (cfg : PropCfg α) (s : PropState α) : α × PropState α :=
  match cfg.getter with
  | some g =>
      if s.getterActive then
        (s.value, s)
      else
        let s1 : PropState α := { s with getterActive := true }
        let r := g s1
        (r.1, { r.2 with getterActive := false })
  | none => (s.value, s)

/-- `Property::SetST` (lines 399-409 of Property.hpp): if a setter is installed
and `m_SetterActive` is not set, a `SetterGuard` sets `m_SetterActive`, the
setter callback runs on the incoming value, and the guard destructor clears
`m_SetterActive`; otherwise `m_Value = newValue` stores the value directly. -/
def SetST (cfg : PropCfg α) (v : α) (s : PropState α) : PropState α :=
  match cfg.setter with
  | some f =>
      if s.setterActive then
        { s with value := v }
      else
        let s1 : PropState α := { s with setterActive := true }
        let s2 := f v s1
        { s2 with setterActive := false }
  | none => { s with value := v }

/-- `Property::Get` (lines 289-327): takes the re-entrant lock when ThreadSafe
(erased in this single-threaded semantics) and calls `GetST`. -/
def Get (cfg : PropCfg α) (s : PropState α) : α × PropState α :=
  GetST cfg s

/-- `Property::Set` (lines 329-334): takes the re-entrant lock when ThreadSafe
(erased here) and calls `SetST`. -/
def Set (cfg : PropCfg α) (v : α) (s : PropState α) : PropState α :=
  SetST cfg v s

/-- `Property::operator=` (lines 192-196), available only when `!ReadOnly`:
forwards to `Set`.  The returned `*this` is the property in its final state. -/
def assign (cfg : PropCfg α) (v : α) (s : PropState α) : PropState α :=
  Set cfg v s

/-- `Property::ApplyOperation` (lines 336-345): under the lock (erased here),
`auto value = GetST()` reads the current value into a local copy, the mutation
lambda runs on that copy, and `SetST(value)` writes the copy back; `*this` is
returned, i.e. the property in its final state.  The mutation lambdas of the
compound-assignment and increment/decrement operators all have the shape
`value ↦ newValue`, modelled as `op : α → α`. -/
def ApplyOperation (cfg : PropCfg α) (op : α → α) (s : PropState α) : PropState α :=
  let r := GetST cfg s
  let v := op r.1
  SetST cfg v r.2

/-- The three-step program from the spec wording of compound assignment:
read the property into a local copy exactly as a plain read would (`Get`),
apply the operator to the copy, write it back exactly as a plain write would
(`Set`). -/
def specReadApplyWrite (cfg : PropCfg α) (op : α → α) (s : PropState α) : PropState α :=
  let r := Get cfg s
  let v := op r.1
  Set cfg v r.2

/-- `Property::SetGetter` (lines 199-206): the assignment `m_Getter =
customGetter` sits inside `if constexpr (is_same_v<GetterType, NoGetter>)`.
When the slot is `NoGetter` the member and the argument both have the empty
struct type `NoGetter`, which can hold no function, so the assignment changes
no observable state; when the slot is a function type the branch is compiled
out and nothing happens.  `m_Value` and the flags are never touched.  In both
cases the configuration is returned unchanged. -/
def SetGetter (p : PropCfg α) (g : GetterCb α) : PropCfg α :=
  if p.hasGetterSlot = false then
    p
  else
    p

/-- `Property::SetSetter` (lines 208-216), available only when `!ReadOnly`:
symmetric to `SetGetter`, with `m_Setter = customSetter` inside
`if constexpr (is_same_v<SetterType, NoSetter>)`.  Never changes observable
state. -/
def SetSetter (p : PropCfg α) (f : SetterCb α) : PropCfg α :=
  if p.hasSetterSlot = false then
    p
  else
    p

/-- The public member operations of `Property` that can touch or read the
instance, named after the operators in Property.hpp. -/
inductive MemberOp where
  | assignOp | setGetterOp | setSetterOp
  | addAssign | subAssign | mulAssign | divAssign | modAssign
  | andAssign | orAssign | xorAssign | shlAssign | shrAssign
  | incPreOp | decPreOp | incPostOp | decPostOp
  | readOp | getRawOp
deriving Repr, DecidableEq

/-- Which member operations instantiate (compile) for a given value of the
`ReadOnly` template parameter.  In Property.hpp only `operator=` (line 192) and
`SetSetter` (line 208) carry `std::enable_if_t<!ReadOnly>`; the
compound-assignment operators (lines 218-240), the increment/decrement
operators (lines 242-248) and `ApplyOperation` (line 336) carry no `ReadOnly`
constraint and compile for every configuration. -/
def memberCompiles (readOnly : Bool) : MemberOp → Bool
  | .assignOp => !readOnly
  | .setSetterOp => !readOnly
  | _ => true

/-- `Property::operator+=` (lines 219-220): `ApplyOperation([&](T& v) { v +=
static_cast<T>(value); })`, at `T = int`. -/
def addAssign (cfg : PropCfg Int) (x : Int) (s : PropState Int) : PropState Int :=
  ApplyOperation cfg (fun v => v + x) s

/-- `Property::operator++()` (line 243): `ApplyOperation([&](T& v) { ++v; })`,
with the increment of the wrapped type abstracted as `succ`. -/
def incPre (succ : α → α) (cfg : PropCfg α) (s : PropState α) : PropState α :=
  ApplyOperation cfg (fun v => succ v) s

/-- Body of the postfix lambda `[&](T& v) { T old = v; v++; return old; }`
(line 247): the pair of the new value of `v` and the returned old value. -/
def incPostBody (succ : α → α) (v : α) : α × α :=
  let old := v
  (succ v, old)

/-- `Property::operator++(int)` (line 247): the lambda saves `old = v`,
increments `v`, and returns `old`; but the parameter of `ApplyOperation` has
type `std::function<void(T&)>`, so the returned old value is discarded and
only the new value of `v` takes effect. -/
def incPost (succ : α → α) (cfg : PropCfg α) (s : PropState α) : PropState α :=
  ApplyOperation cfg (fun v => (incPostBody succ v).1) s

/-- `Property::operator--()` (line 244), with the decrement abstracted as
`pred`. -/
def decPre (pred : α → α) (cfg : PropCfg α) (s : PropState α) : PropState α :=
  ApplyOperation cfg (fun v => pred v) s

/-- Body of the postfix lambda `[&](T& v) { T old = v; v--; return old; }`
(line 248). -/
def decPostBody (pred : α → α) (v : α) : α × α :=
  let old := v
  (pred v, old)

/-- `Property::operator--(int)` (line 248): as `incPost`, the returned old
value is discarded. -/
def decPost (pred : α → α) (cfg : PropCfg α) (s : PropState α) : PropState α :=
  ApplyOperation cfg (fun v => (decPostBody pred v).1) s

/-- `std::clamp(value, 0, 150)` specialised to the order on `Int`:
`lo` if `v < lo`, `hi` if `hi < v`, else `v`. -/
def clampInt (v lo hi : Int) : Int :=
  if v < lo then lo else if hi < v then hi else v

/-- `Person::SetAge` (example.cpp lines 31-34): the setter body executes
`Age = std::clamp(value, 0, 150)`, an assignment back into the same property,
which goes through `operator=` / `Set` / `SetST` of that property.  Because the
callback re-enters the property whose setter it is, the definition carries a
fuel parameter bounding the number of nested callback invocations; whenever
the callback is invoked through the property interface, `m_SetterActive` is
already set, so the nested `SetST` stores directly and fuel `1` already gives
the exact behaviour (fuel `0` is unreachable there). -/
def SetAgeFuel : Nat → SetterCb Int
  | 0 => fun _ s => s
  | n + 1 => fun v s =>
      assign
        { readOnly := false, threadSafe := true, hasGetterSlot := false,
          hasSetterSlot := true, getter := none, setter := some (SetAgeFuel n) }
        (clampInt v 0 150) s

/-- Configuration of `Person::Age` (example.cpp line 12):
`PropertyRWSMT<int> = Property<int, false, true, NoGetter, SetterTypeValue<int>>`
constructed with the `SetAge` setter. -/
def ageCfg : PropCfg Int :=
  { readOnly := false, threadSafe := true, hasGetterSlot := false,
    hasSetterSlot := true, getter := none, setter := some (SetAgeFuel 2) }

/-- The `predefinedCountry` string appended by `Person::GetAddress`
(example.cpp line 38). -/
def predefinedCountry : String := " USA"

/-- `Person::GetAddress` (example.cpp lines 37-42): the getter body executes
`return Address() + predefinedCountry`, where `Address()` is a read of the
same property, going through `operator()` / `Get` / `GetST`.  As with
`SetAgeFuel`, the self-reference is bounded by a fuel parameter; whenever the
callback is invoked through the property interface, `m_GetterActive` is
already set, so the nested `Get` returns the raw value and fuel `1` already
gives the exact behaviour. -/
def GetAddressFuel : Nat → GetterCb String
  | 0 => fun s => (s.value, s)
  | n + 1 => fun s =>
      let r := Get
        { readOnly := true, threadSafe := false, hasGetterSlot := true,
          hasSetterSlot := false, getter := some (GetAddressFuel n), setter := none } s
      (r.1 ++ predefinedCountry, r.2)

/-- Configuration of `Person::Address` (example.cpp line 13):
`PropertyROG<std::string, GetterTypeValue<std::string>>
= Property<std::string, true, false, GetterTypeValue<std::string>, NoSetter>`
constructed with the `GetAddress` getter. -/
def addressCfg : PropCfg String :=
  { readOnly := true, threadSafe := false, hasGetterSlot := true,
    hasSetterSlot := false, getter := some (GetAddressFuel 2), setter := none }

/-- A `PropertyRW<α> = Property<α, false, false, NoGetter, NoSetter>`
configuration: writable, single-threaded, no callbacks. -/
def plainCfg (α : Type u) : PropCfg α :=
  { readOnly := false, threadSafe := false, hasGetterSlot := false,
    hasSetterSlot := false, getter := none, setter := none }

/-- A `PropertyRO<Int>` configuration: read-only, single-threaded, no
callbacks. -/
def roCfg : PropCfg Int :=
  { readOnly := true, threadSafe := false, hasGetterSlot := false,
    hasSetterSlot := false, getter := none, setter := none }

/-- A writable property with no custom setter but with a custom getter that
returns one more than the stored value (a `PropertyRWG<int>`-style
configuration, analogous to the transforming getter `Person::GetAddress`). -/
def plusOneGetterCfg : PropCfg Int :=
  { readOnly := false, threadSafe := false, hasGetterSlot := true,
    hasSetterSlot := false, getter := some (fun s => (s.value + 1, s)),
    setter := none }

/-- A writable configuration with both callback slots occupied: the getter
returns the stored value, the setter stores the incoming value. -/
def fullCfg : PropCfg Int :=
  { readOnly := false, threadSafe := false, hasGetterSlot := true,
    hasSetterSlot := true, getter := some (fun s => (s.value, s)),
    setter := some (fun v s => { s with value := v }) }

/-- C1 counterexample: the claim quantifies over every writable property with
no custom setter, but a writable, setterless property with a transforming
custom getter (here: return stored value plus one) reads back a value
different from the one just written: write `5`, read returns `6`. -/
theorem C1_counterexample :
    (Get plusOneGetterCfg (Set plusOneGetterCfg 5 ⟨0, false, false⟩)).1 ≠ 5 := by
  decide

/-- C1 (amended): writing `v` to a property with no custom setter stores `v`
in the underlying value, and if the property also has no custom getter, the
next read returns exactly `v` (with the state otherwise unchanged). -/
theorem C1_write_then_read (cfg : PropCfg α) (v : α) (s : PropState α) :
    (cfg.setter = none → (Set cfg v s).value = v) ∧
    (cfg.setter = none → cfg.getter = none →
      Get cfg (Set cfg v s) = (v, Set cfg v s)) := by
  constructor
  · intro hs
    simp [Set, SetST, hs]
  · intro hs hg
    simp [Get, GetST, Set, SetST, hs, hg]

/-- C1 witness: on a `PropertyRW<int>` configuration, writing `7` stores `7`
and the next read returns `7`. -/
theorem C1_write_then_read_witness :
    (Set (plainCfg Int) 7 ⟨0, false, false⟩).value = 7 ∧
    Get (plainCfg Int) (Set (plainCfg Int) 7 ⟨0, false, false⟩) =
      (7, Set (plainCfg Int) 7 ⟨0, false, false⟩) :=
  ⟨(C1_write_then_read (plainCfg Int) 7 ⟨0, false, false⟩).1 rfl,
   (C1_write_then_read (plainCfg Int) 7 ⟨0, false, false⟩).2 rfl rfl⟩

/-- C2: with a custom getter installed, a top-level read (getter flag clear)
runs the callback on a state whose in-getter flag is set and clears the flag
when the callback returns; a nested read (flag set) returns the raw stored
value without invoking the callback.  Symmetrically for the setter and the
in-setter flag: a nested write stores the raw value directly. -/
theorem C2_reentrancy_flags (cfg : PropCfg α) (g : GetterCb α) (f : SetterCb α)
    (v : α) (s : PropState α) :
    (cfg.getter = some g → s.getterActive = false →
      GetST cfg s =
        ((g { s with getterActive := true }).1,
         { (g { s with getterActive := true }).2 with getterActive := false })) ∧
    (cfg.getter = some g → s.getterActive = true → GetST cfg s = (s.value, s)) ∧
    (cfg.setter = some f → s.setterActive = false →
      SetST cfg v s =
        { f v { s with setterActive := true } with setterActive := false }) ∧
    (cfg.setter = some f → s.setterActive = true →
      SetST cfg v s = { s with value := v }) := by
  refine ⟨?_, ?_, ?_, ?_⟩ <;> intro h1 h2 <;> simp [GetST, SetST, h1, h2]

/-- C2 witness: on a concrete configuration with both callbacks, a top-level
read runs the getter with the flag set and restores it, a nested read returns
the raw value, a top-level write runs the setter with the flag set and
restores it, and a nested write stores the raw value. -/
theorem C2_reentrancy_flags_witness :
    GetST fullCfg ⟨0, false, false⟩ = (0, ⟨0, false, false⟩) ∧
    GetST fullCfg ⟨3, true, true⟩ = ((3 : Int), ⟨3, true, true⟩) ∧
    SetST fullCfg 9 ⟨0, false, false⟩ = ⟨9, false, false⟩ ∧
    SetST fullCfg 9 ⟨0, true, true⟩ = ⟨9, true, true⟩ :=
  ⟨(C2_reentrancy_flags fullCfg (fun s => (s.value, s))
      (fun v s => { s with value := v }) 9 ⟨0, false, false⟩).1 rfl rfl,
   (C2_reentrancy_flags fullCfg (fun s => (s.value, s))
      (fun v s => { s with value := v }) 9 ⟨3, true, true⟩).2.1 rfl rfl,
   (C2_reentrancy_flags fullCfg (fun s => (s.value, s))
      (fun v s => { s with value := v }) 9 ⟨0, false, false⟩).2.2.1 rfl rfl,
   (C2_reentrancy_flags fullCfg (fun s => (s.value, s))
      (fun v s => { s with value := v }) 9 ⟨0, true, true⟩).2.2.2 rfl rfl⟩

/-- C3: read-only enforcement of Property.hpp gates only `operator=` and
`SetSetter` behind `enable_if_t<!ReadOnly>`; the compound-assignment and
increment/decrement operators carry no such gate, so they compile on a
read-only property and mutate its stored value: `p += 5` on a `PropertyRO<int>`
holding `0` changes the stored value to `5`, contradicting the claim that a
read-only property rejects every write attempt at compile time. -/
theorem C3_readonly_not_enforced_for_compound_ops :
    memberCompiles true MemberOp.addAssign = true ∧
    memberCompiles true MemberOp.incPreOp = true ∧
    memberCompiles true MemberOp.assignOp = false ∧
    memberCompiles true MemberOp.setSetterOp = false ∧
    (addAssign roCfg 5 ⟨0, false, false⟩).value = 5 ∧
    incPre (fun v => v + 1) roCfg ⟨0, false, false⟩ = ⟨1, false, false⟩ := by
  decide

/-- C4: every compound-assignment / increment / decrement operator calls
`ApplyOperation` with a mutation lambda `op`, and `ApplyOperation` produces
exactly the state of the three-step program: read the property into a local
copy as a plain read would, apply `op` to the copy, write the copy back as a
plain write would. -/
theorem C4_compound_equals_read_apply_write (cfg : PropCfg α) (op : α → α)
    (s : PropState α) :
    ApplyOperation cfg op s = specReadApplyWrite cfg op s :=
  rfl

/-- C5: on the `Person::Age` configuration, whose setter assigns
`std::clamp(value, 0, 150)` back into the same property, a top-level write of
`v` makes the next read return the clamp of `v`: `150` when `150 < v`, `0`
when `v < 0`, and `v` itself when `v` is in range. -/
theorem C5_clamping_setter (v : Int) (s : PropState Int)
    (h : s.setterActive = false) :
    (Get ageCfg (assign ageCfg v s)).1 = clampInt v 0 150 ∧
    (150 < v → (Get ageCfg (assign ageCfg v s)).1 = 150) ∧
    (v < 0 → (Get ageCfg (assign ageCfg v s)).1 = 0) ∧
    (0 ≤ v → v ≤ 150 → (Get ageCfg (assign ageCfg v s)).1 = v) := by
  obtain ⟨val, ga, sa⟩ := s
  cases h
  have hmain : (Get ageCfg (assign ageCfg v ⟨val, ga, false⟩)).1 = clampInt v 0 150 := rfl
  refine ⟨hmain, ?_, ?_, ?_⟩
  · intro hv
    rw [hmain]
    unfold clampInt
    split_ifs <;> omega
  · intro hv
    rw [hmain]
    unfold clampInt
    split_ifs <;> omega
  · intro hv1 hv2
    rw [hmain]
    unfold clampInt
    split_ifs <;> omega

/-- C5 witness: writing `200` makes the next read return `150`; writing `-5`
makes the next read return `0`. -/
theorem C5_clamping_setter_witness :
    (Get ageCfg (assign ageCfg 200 ⟨0, false, false⟩)).1 = 150 ∧
    (Get ageCfg (assign ageCfg (-5) ⟨0, false, false⟩)).1 = 0 :=
  ⟨(C5_clamping_setter 200 ⟨0, false, false⟩ rfl).2.1 (by norm_num),
   (C5_clamping_setter (-5) ⟨0, false, false⟩ rfl).2.2.1 (by norm_num)⟩

/-- C6: on the `Person::Address` configuration, whose getter returns the
property's own value with `predefinedCountry` appended, a top-level read of a
state with raw value `x` returns `x ++ predefinedCountry`, leaves the raw
value at `x` with the flag cleared, and a second read returns
`x ++ predefinedCountry` again (the appended text never accumulates). -/
theorem C6_appending_getter (x : String) (s : PropState String)
    (hv : s.value = x) (hg : s.getterActive = false) :
    (Get addressCfg s).1 = x ++ predefinedCountry ∧
    (Get addressCfg s).2.value = x ∧
    (Get addressCfg s).2.getterActive = false ∧
    (Get addressCfg (Get addressCfg s).2).1 = x ++ predefinedCountry := by
  obtain ⟨val, ga, sa⟩ := s
  cases hg
  cases hv
  exact ⟨rfl, rfl, rfl, rfl⟩

/-- C6 witness: with the raw value of example.cpp, one read and a repeated
read both return the address with the country appended, and the raw value is
unchanged. -/
theorem C6_appending_getter_witness :
    (Get addressCfg ⟨"123 Main St Mega City MS 12345", false, false⟩).1 =
      "123 Main St Mega City MS 12345" ++ predefinedCountry ∧
    (Get addressCfg ⟨"123 Main St Mega City MS 12345", false, false⟩).2.value =
      "123 Main St Mega City MS 12345" ∧
    (Get addressCfg ⟨"123 Main St Mega City MS 12345", false, false⟩).2.getterActive
      = false ∧
    (Get addressCfg
        (Get addressCfg ⟨"123 Main St Mega City MS 12345", false, false⟩).2).1 =
      "123 Main St Mega City MS 12345" ++ predefinedCountry :=
  C6_appending_getter "123 Main St Mega City MS 12345"
    ⟨"123 Main St Mega City MS 12345", false, false⟩ rfl rfl

/-- C7: calling `SetGetter` on a configuration whose getter slot is `NoGetter`
(and `SetSetter` on one whose setter slot is `NoSetter`) signals no error and
is a no-op: the configuration is unchanged, so every subsequent read and
write behaves exactly as before and the stored value is untouched. -/
theorem C7_set_callback_on_missing_slot_noop (p : PropCfg α) (g : GetterCb α)
    (f : SetterCb α) (v : α) (s : PropState α)
    (hg : p.hasGetterSlot = false) (hf : p.hasSetterSlot = false) :
    SetGetter p g = p ∧ SetSetter p f = p ∧
    Get (SetGetter p g) s = Get p s ∧ Set (SetSetter p f) v s = Set p v s := by
  unfold SetGetter SetSetter
  simp

/-- C7 witness: on a `PropertyRW<int>` configuration (both slots absent),
`SetGetter` and `SetSetter` leave the configuration and its read/write
behaviour unchanged. -/
theorem C7_set_callback_on_missing_slot_noop_witness :
    SetGetter (plainCfg Int) (fun s => (s.value, s)) = plainCfg Int ∧
    SetSetter (plainCfg Int) (fun v s => { s with value := v }) = plainCfg Int ∧
    Get (SetGetter (plainCfg Int) (fun s => (s.value, s))) ⟨0, false, false⟩ =
      Get (plainCfg Int) ⟨0, false, false⟩ ∧
    Set (SetSetter (plainCfg Int) (fun v s => { s with value := v })) 7
        ⟨0, false, false⟩ =
      Set (plainCfg Int) 7 ⟨0, false, false⟩ :=
  C7_set_callback_on_missing_slot_noop (plainCfg Int) (fun s => (s.value, s))
    (fun v s => { s with value := v }) 7 ⟨0, false, false⟩ rfl rfl

/-- C9: calling `SetGetter` on a configuration whose getter slot is a function
type (and `SetSetter` on one whose setter slot is a function type) never
installs the supplied callback — the assignment branch is compiled out — so
the callbacks remain exactly the ones supplied at construction and every read
and write behaves as if the call had never happened. -/
theorem C9_set_callback_on_occupied_slot_not_installed (p : PropCfg α)
    (g : GetterCb α) (f : SetterCb α) (v : α) (s : PropState α)
    (hg : p.hasGetterSlot = true) (hf : p.hasSetterSlot = true) :
    SetGetter p g = p ∧ SetSetter p f = p ∧
    (SetGetter p g).getter = p.getter ∧ (SetSetter p f).setter = p.setter ∧
    Get (SetGetter p g) s = Get p s ∧ Set (SetSetter p f) v s = Set p v s := by
  unfold SetGetter SetSetter
  simp

/-- C9 witness: on a configuration with both callback slots occupied,
`SetGetter` and `SetSetter` install nothing: the construction-time callbacks
and the read/write behaviour are unchanged. -/
theorem C9_set_callback_on_occupied_slot_not_installed_witness :
    SetGetter fullCfg (fun s => (s.value + 1, s)) = fullCfg ∧
    SetSetter fullCfg (fun _ s => s) = fullCfg ∧
    (SetGetter fullCfg (fun s => (s.value + 1, s))).getter = fullCfg.getter ∧
    (SetSetter fullCfg (fun _ s => s)).setter = fullCfg.setter ∧
    Get (SetGetter fullCfg (fun s => (s.value + 1, s))) ⟨0, false, false⟩ =
      Get fullCfg ⟨0, false, false⟩ ∧
    Set (SetSetter fullCfg (fun _ s => s)) 7 ⟨0, false, false⟩ =
      Set fullCfg 7 ⟨0, false, false⟩ :=
  C9_set_callback_on_occupied_slot_not_installed fullCfg
    (fun s => (s.value + 1, s)) (fun _ s => s) 7 ⟨0, false, false⟩ rfl rfl

/-- C10: the postfix increment/decrement operators discard the old value
computed inside their lambda and produce exactly the state of the prefix
operators; both return the property itself (its post-operation state). -/
theorem C10_postfix_equals_prefix (succ pred : α → α) (cfg : PropCfg α)
    (s : PropState α) :
    incPost succ cfg s = incPre succ cfg s ∧
    decPost pred cfg s = decPre pred cfg s :=
  ⟨rfl, rfl⟩

end Propp
